import Mathlib

/-!
Shallow embedding of the Bengali-to-English medical transcription pipeline
(`transcription_pipeline.py`, with the pipeline-facing parts of
`user_interface.py`).  Pure pipeline state is modelled explicitly; thread
spawning is modelled by fresh thread identifiers drawn from a counter; the
shared `is_running` / `is_paused` flags read by the two worker loops are
modelled as per-iteration samples; external recognition and translation
services are modelled by their outcome values fed into each cycle.
Notifications and buffer appends are recorded as an ordered event trace.
Times are rationals (the code compares `time.time()` differences against the
constant 3.0); 16-bit audio samples are integers with explicit two's
complement wrapping where the numpy code overflows.
-/

namespace BanglaMed

/-- Helper for `pySplit`: scan the character list, accumulating the current
word in reverse; whitespace ends the current word (if any), and runs of
whitespace produce no empty words. -/
def pySplitAux : List Char → List Char → List String
  | [], cur => if cur.isEmpty then [] else [String.mk cur.reverse]
  | c :: cs, cur =>
      if c.isWhitespace then
        if cur.isEmpty then pySplitAux cs []
        else String.mk cur.reverse :: pySplitAux cs []
      else pySplitAux cs (c :: cur)

/-- Python `str.split()` with no separator: split on runs of whitespace and
drop empty tokens (`text.split()` at `transcription_pipeline.py:265`). -/
def pySplit (text : String) : List String :=
  pySplitAux text.data []

/-- Python `" ".join(l)` (`transcription_pipeline.py:272`). -/
def pyJoinSpace : List String → String
  | [] => ""
  | [w] => w
  | w :: ws => w ++ " " ++ pyJoinSpace ws

/-- The append idiom used for both transcript buffers
(`transcription_pipeline.py:188-191` and `203-206`): keep the new chunk if
the buffer is empty, otherwise append it after a single space. -/
def joinSp (acc t : String) : String :=
  if acc = "" then t else acc ++ " " ++ t

/-- One captured audio chunk, as its decoded signed 16-bit samples
(`np.frombuffer(data, dtype=np.int16)` at `transcription_pipeline.py:130`). -/
abbrev AudioData := List Int

/-- Two's complement wrap-around into the signed 16-bit range, as numpy
performs on int16 overflow. -/
def int16wrap (x : Int) : Int :=
  (x + 32768) % 65536 - 32768

/-- `np.abs` on an int16 sample: the absolute value, stored back into int16
with overflow wrap (so `npAbs (-32768) = -32768`). -/
def npAbs (x : Int) : Int :=
  int16wrap ((x : Int).natAbs : Int)

/-- `np.abs(audio_array).mean() / 32768.0`
(`transcription_pipeline.py:130-131`). -/
def audioLevel (samples : AudioData) : ℚ :=
  (((samples.map npAbs).sum : Int) : ℚ) / (samples.length : ℚ) / 32768

/-- Outcome of one `recognize_google` call
(`transcription_pipeline.py:184,221,223`). -/
inductive RecognitionResult where
  | success (text : String)
  | unknownValueError
  | requestError
  deriving DecidableEq

/-- Observable actions of one recognition+translation cycle: appends to the
two transcript buffers and the update callbacks invoked on the UI. -/
inductive Event where
  | bengaliAppend (chunk : String)
  | bengaliNotify (fullText : String)
  | englishAppend (chunk : String)
  | englishNotify (fullText : String)
  deriving DecidableEq

/-- The mutable fields of `TranscriptionPipeline`
(`transcription_pipeline.py:24-61`).  Worker threads are modelled by
identifiers drawn from `thread_counter`, so spawning a thread is observable
as a counter increment and a fresh identifier. -/
structure PipelineState where
  is_running : Bool
  is_paused : Bool
  current_bengali_text : String
  current_english_text : String
  bengali_medical_terms : List (String × String)
  on_bengali_update_set : Bool
  on_english_update_set : Bool
  recording_thread : Option Nat
  processing_thread : Option Nat
  thread_counter : Nat
  deriving DecidableEq

/-- `TranscriptionPipeline.__init__` (`transcription_pipeline.py:24-61`):
texts empty, callbacks unset, the fallback dictionary
`bengali_medical_terms` literally empty, no threads. -/
def initState : PipelineState :=
  { is_running := false
    is_paused := false
    current_bengali_text := ""
    current_english_text := ""
    bengali_medical_terms := []
    on_bengali_update_set := false
    on_english_update_set := false
    recording_thread := none
    processing_thread := none
    thread_counter := 0 }

/-- The pipeline as seen after `TranscriptionWorker.__init__`
(`user_interface.py:80-85`), which registers both update callbacks. -/
def initWorkerState : PipelineState :=
  { initState with on_bengali_update_set := true, on_english_update_set := true }

/-- Python `word in dict` / `dict[word]` on `bengali_medical_terms`. -/
def lookupTerm (terms : List (String × String)) (w : String) : Option String :=
  (terms.find? (fun p => p.1 == w)).map (fun p => p.2)

/-- The word-by-word fallback loop of `update_bengali_text`
(`transcription_pipeline.py:266-271`). -/
def translateWords (terms : List (String × String)) : List String → List String
  | [] => []
  | w :: ws =>
      (match lookupTerm terms w with
       | some v => v
       | none => w) :: translateWords terms ws

/-- `TranscriptionPipeline.start` (`transcription_pipeline.py:63-78`): set
the flags and unconditionally spawn two fresh worker threads. -/
def start (s : PipelineState) : PipelineState :=
  { s with
    is_running := true
    is_paused := false
    recording_thread := some s.thread_counter
    processing_thread := some (s.thread_counter + 1)
    thread_counter := s.thread_counter + 2 }

/-- `TranscriptionPipeline.stop` (`transcription_pipeline.py:80-97`): clear
the flags, join and drop the threads, return the final text snapshot. -/
def stop (s : PipelineState) : PipelineState × String × String :=
  ({ s with
      is_running := false
      is_paused := false
      recording_thread := none
      processing_thread := none },
   s.current_bengali_text, s.current_english_text)

/-- `TranscriptionPipeline.pause` (`transcription_pipeline.py:99-102`). -/
def pause (s : PipelineState) : PipelineState :=
  { s with is_paused := true }

/-- `TranscriptionPipeline.resume` (`transcription_pipeline.py:104-107`). -/
def resume (s : PipelineState) : PipelineState :=
  { s with is_paused := false }

/-- `TranscriptionPipeline.update_bengali_text`
(`transcription_pipeline.py:245-274`).  `translation = some t` models a
successful `translator.translate` call returning `t`; `none` models the
call raising, which takes the word-by-word fallback branch.  Returns the
new state and the returned English text. -/
def update_bengali_text (s : PipelineState) (text : String)
    (translation : Option String) : PipelineState × String :=
  let s1 := { s with current_bengali_text := text }
  match translation with
  | some t => ({ s1 with current_english_text := t }, t)
  | none =>
      let e := pyJoinSpace (translateWords s.bengali_medical_terms (pySplit text))
      ({ s1 with current_english_text := e }, e)

/-- One recognition+translation cycle on a finalized window
(`transcription_pipeline.py:177-224`): the inner body from the
`recognize_google` call onwards, given the recognition outcome and — when
recognition succeeds — the translation outcome (`some e` for success with
text `e`, `none` for a raised translation error).  Returns the new pipeline
state and the ordered trace of buffer appends and callback invocations. -/
def processRecognition (s : PipelineState) (recog : RecognitionResult)
    (translation : Option String) : PipelineState × List Event :=
  match recog with
  | .unknownValueError => (s, [])
  | .requestError => (s, [])
  | .success text =>
      if text = "" then (s, [])
      else
        let newBn := joinSp s.current_bengali_text text
        let s1 := { s with current_bengali_text := newBn }
        let evs1 := Event.bengaliAppend text ::
          (if s.on_bengali_update_set then [Event.bengaliNotify newBn] else [])
        match translation with
        | some english_text =>
            let newEn := joinSp s1.current_english_text english_text
            (({ s1 with current_english_text := newEn } : PipelineState),
             evs1 ++ Event.englishAppend english_text ::
               (if s.on_english_update_set then [Event.englishNotify newEn] else []))
        | none =>
            match lookupTerm s.bengali_medical_terms text with
            | some english_text =>
                let newEn := s1.current_english_text ++ " " ++ english_text
                (({ s1 with current_english_text := newEn } : PipelineState),
                 evs1 ++ Event.englishAppend english_text ::
                   (if s.on_english_update_set then [Event.englishNotify newEn] else []))
            | none => (s1, evs1)

/-- Local state of `_processing_loop` (`transcription_pipeline.py:148-150`):
the accumulated window buffer and the `last_process_time` timestamp. -/
structure AssemblerState where
  audio_buffer : List AudioData
  last_process_time : ℚ
  deriving DecidableEq

/-- Environment of one `_processing_loop` iteration: the sampled
`is_running` flag, the frames drained from the queue with their levels, the
iteration's `time.time()` value, and the external-service outcomes used if
a window is dispatched. -/
structure IterInput where
  running : Bool
  queued : List (AudioData × ℚ)
  time : ℚ
  recog : RecognitionResult
  translation : Option String
  deriving DecidableEq

/-- One iteration of the `while self.is_running` body of `_processing_loop`
(`transcription_pipeline.py:153-240`): drain the queue into the buffer;
when the buffer is non-empty and at least 3 seconds have elapsed since
`last_process_time`, dispatch the recognition cycle and reset the buffer
and timestamp.  The last component records the dispatched window, if any. -/
def processingIteration (ps : PipelineState) (st : AssemblerState)
    (queued : List (AudioData × ℚ)) (currentTime : ℚ)
    (recog : RecognitionResult) (translation : Option String) :
    PipelineState × AssemblerState × List Event × Option (List AudioData) :=
  let buf := st.audio_buffer ++ queued.map (fun q => q.1)
  if buf ≠ [] ∧ currentTime - st.last_process_time ≥ 3 then
    let r := processRecognition ps recog translation
    (r.1, ⟨[], currentTime⟩, r.2, some buf)
  else
    (ps, ⟨buf, st.last_process_time⟩, [], none)

/-- The `_processing_loop` run over a finite trace of iteration inputs:
the loop exits as soon as the sampled `is_running` flag is false, dropping
the local buffer.  Returns the final pipeline state, the final assembler
state, and the list of dispatched windows in order. -/
def processingLoop (ps : PipelineState) (st : AssemblerState) :
    List IterInput → PipelineState × AssemblerState × List (List AudioData)
  | [] => (ps, st, [])
  | i :: rest =>
      if i.running then
        let r := processingIteration ps st i.queued i.time i.recog i.translation
        let f := processingLoop r.1 r.2.1 rest
        (f.1, f.2.1, r.2.2.2.toList ++ f.2.2)
      else
        (ps, st, [])

/-- One iteration of the `while self.is_running` body of `_recording_loop`
(`transcription_pipeline.py:124-137`), given the sampled `is_paused` flag
and the samples a stream read would produce: when not paused, read one
chunk, compute its level and push `(data, level)`; when paused, only sleep.
Returns the pushed queue item (if any) and the number of stream reads. -/
def recordingIteration (pausedFlag : Bool) (data : AudioData) :
    Option (AudioData × ℚ) × Nat :=
  if ¬ pausedFlag then (some (data, audioLevel data), 1) else (none, 0)

/-- A finite run of successful recognition+translation cycles, each given
as `(recognized text, translated text)`. -/
def runCycles : PipelineState → List (String × String) → PipelineState × List Event
  | s, [] => (s, [])
  | s, c :: cs =>
      let r := processRecognition s (.success c.1) (some c.2)
      let f := runCycles r.1 cs
      (f.1, r.2 ++ f.2)

/-- `MainWindow.start_recording` (`user_interface.py:267-287`), reduced to
its pipeline effect: return early when the worker thread is already
running, otherwise start a worker that calls `pipeline.start()`. -/
def start_recording (workerRunning : Bool) (s : PipelineState) : PipelineState :=
  if workerRunning then s else start s

/-- `MainWindow.on_bengali_edited` (`user_interface.py:396-418`), reduced to
its pipeline effect: silently return while the worker is running; otherwise,
for non-empty text, call `pipeline.update_bengali_text`. -/
def on_bengali_edited (workerRunning : Bool) (s : PipelineState) (text : String)
    (translation : Option String) : PipelineState :=
  if workerRunning then s
  else if text ≠ "" then (update_bengali_text s text translation).1
  else s

/-! ### Helper lemmas -/

theorem append_space_ne_empty (b x : String) : b ++ " " ++ x ≠ "" := by
  intro h
  have h2 := congrArg String.length h
  simp [String.length_append, show (" ").length = 1 from rfl] at h2

theorem foldl_joinSp_ne (l : List String) :
    ∀ b : String, b ≠ "" → List.foldl joinSp b l = pyJoinSpace (b :: l) := by
  induction l with
  | nil => intro b hb; simp [pyJoinSpace]
  | cons x xs ih =>
      intro b hb
      have hb1 : joinSp b x = b ++ " " ++ x := by simp [joinSp, hb]
      rw [List.foldl_cons, hb1, ih _ (append_space_ne_empty b x)]
      cases xs with
      | nil => simp [pyJoinSpace, String.append_assoc]
      | cons y ys => simp [pyJoinSpace, String.append_assoc]

theorem foldl_joinSp (l : List String) (hl : ∀ x ∈ l, x ≠ "") :
    List.foldl joinSp "" l = pyJoinSpace l := by
  cases l with
  | nil => rfl
  | cons x xs =>
      have hx : x ≠ "" := hl x (by simp)
      have h0 : joinSp "" x = x := by simp [joinSp]
      rw [List.foldl_cons, h0]
      exact foldl_joinSp_ne xs x hx

theorem processRecognition_success_state (s : PipelineState) (t e : String)
    (ht : t ≠ "") :
    (processRecognition s (.success t) (some e)).1 =
      { s with current_bengali_text := joinSp s.current_bengali_text t,
               current_english_text := joinSp s.current_english_text e } := by
  simp [processRecognition, ht]

theorem processRecognition_success_events (s : PipelineState) (t e : String)
    (ht : t ≠ "") :
    (processRecognition s (.success t) (some e)).2 =
      Event.bengaliAppend t ::
        (if s.on_bengali_update_set then
          [Event.bengaliNotify (joinSp s.current_bengali_text t)] else []) ++
      Event.englishAppend e ::
        (if s.on_english_update_set then
          [Event.englishNotify (joinSp s.current_english_text e)] else []) := by
  simp [processRecognition, ht]

theorem runCycles_texts (cs : List (String × String)) :
    ∀ s : PipelineState, (∀ c ∈ cs, c.1 ≠ "") →
      (runCycles s cs).1.current_bengali_text =
        List.foldl joinSp s.current_bengali_text (cs.map (fun c => c.1)) ∧
      (runCycles s cs).1.current_english_text =
        List.foldl joinSp s.current_english_text (cs.map (fun c => c.2)) := by
  induction cs with
  | nil => intro s _; simp [runCycles]
  | cons c cs ih =>
      intro s h
      have hc : c.1 ≠ "" := h c (by simp)
      have hrest : ∀ x ∈ cs, x.1 ≠ "" := fun x hx => h x (by simp [hx])
      have hstep := processRecognition_success_state s c.1 c.2 hc
      have := ih (processRecognition s (.success c.1) (some c.2)).1 hrest
      simp only [runCycles]
      rw [this.1, this.2, hstep]
      simp

theorem translateWords_map (terms : List (String × String)) (l : List String) :
    translateWords terms l = l.map (fun w => (lookupTerm terms w).getD w) := by
  induction l with
  | nil => rfl
  | cons w ws ih =>
      simp only [translateWords, List.map_cons, ih]
      cases lookupTerm terms w <;> rfl

theorem translateWords_nil_terms (l : List String) :
    translateWords [] l = l := by
  induction l with
  | nil => rfl
  | cons w ws ih => simp [translateWords, lookupTerm, ih]

/-! ### Claims -/

/-- Claim C1, counterexample: calling `update_bengali_text` while
`is_running = true` is not rejected — both transcript buffers are mutated
by the call. -/
theorem update_bengali_text_mutates_while_running :
    ((update_bengali_text
        { initState with is_running := true,
                         current_bengali_text := "a",
                         current_english_text := "b" }
        "c" none).1.current_bengali_text ≠ "a") ∧
    ((update_bengali_text
        { initState with is_running := true,
                         current_bengali_text := "a",
                         current_english_text := "b" }
        "c" none).1.current_english_text ≠ "b") := by
  decide

/-- Claim C1, amended: `TranscriptionPipeline.update_bengali_text` performs
no state check and always overwrites both transcript buffers, regardless of
`is_running`; the guard lives one layer up, in the UI handler
`on_bengali_edited`, which, while the worker thread is running, returns
without calling the pipeline — so neither buffer is mutated via the UI path
— but the edit is silently ignored rather than surfaced as a reported
failure. -/
theorem idle_only_edit_amended (s : PipelineState) (text : String)
    (translation : Option String) :
    on_bengali_edited true s text translation = s ∧
    (update_bengali_text s text translation).1.current_bengali_text = text := by
  constructor
  · simp [on_bengali_edited]
  · cases translation <;> simp [update_bengali_text]

/-- Claim C3, counterexample: calling `start` while the pipeline is Paused
(is_running and is_paused both true) is not a no-op — it clears `is_paused`
and spawns fresh worker threads (observable as a `thread_counter` change). -/
theorem start_while_paused_not_noop :
    ((start (pause (start initState))).is_paused ≠
      (pause (start initState)).is_paused) ∧
    ((start (pause (start initState))).thread_counter ≠
      (pause (start initState)).thread_counter) := by
  decide

/-- Claim C3, amended: `TranscriptionPipeline.start` is unguarded: called in
any state (including Running or Paused) it sets `is_running := true`,
`is_paused := false` and spawns two fresh worker threads, replacing the
previous thread references; the transcripts are left unchanged.  The no-op
behaviour exists only at the UI level, whose `start_recording` returns
immediately when the worker is already running. -/
theorem start_amended (s : PipelineState) :
    (start s).is_running = true ∧
    (start s).is_paused = false ∧
    (start s).current_bengali_text = s.current_bengali_text ∧
    (start s).current_english_text = s.current_english_text ∧
    (start s).recording_thread = some s.thread_counter ∧
    (start s).processing_thread = some (s.thread_counter + 1) ∧
    (start s).thread_counter = s.thread_counter + 2 ∧
    start_recording true s = s := by
  refine ⟨rfl, rfl, rfl, rfl, rfl, rfl, rfl, ?_⟩
  simp [start_recording]

/-- Claim C9: the capture-loop level computation is claimed to lie in
`[0, 1]`; the code (`np.abs(audio_array).mean() / 32768.0` on int16 data)
violates this — and its own `Normalize to 0-1` comment — on a frame whose
samples are `-32768`, where numpy's int16 `abs` wraps to `-32768` and the
level evaluates to `-1`. -/
theorem audio_level_wrap_failure :
    audioLevel [-32768] = -1 ∧ ¬ (0 ≤ audioLevel [-32768]) := by
  have h : audioLevel [-32768] = -1 := by
    simp [audioLevel, npAbs, int16wrap]
  exact ⟨h, by rw [h]; norm_num⟩

/-- Claim C2: over any finite sequence of recognition cycles that each
succeed at recognition (non-empty text) and translation, starting from the
empty transcripts of a freshly constructed pipeline with both callbacks
registered, the Bengali buffer equals the recognized texts joined by single
spaces and the English buffer equals the translated texts joined by single
spaces; and within each such cycle both buffers are extended exactly once,
with the Bengali append and its notification preceding the English append
and its notification in the event trace. -/
theorem append_invariant_and_scenario (cs : List (String × String))
    (h : ∀ c ∈ cs, c.1 ≠ "" ∧ c.2 ≠ "") :
    (runCycles initWorkerState cs).1.current_bengali_text =
      pyJoinSpace (cs.map (fun c => c.1)) ∧
    (runCycles initWorkerState cs).1.current_english_text =
      pyJoinSpace (cs.map (fun c => c.2)) ∧
    (∀ (s : PipelineState) (t e : String), t ≠ "" →
      s.on_bengali_update_set = true → s.on_english_update_set = true →
      (processRecognition s (.success t) (some e)).1.current_bengali_text =
        joinSp s.current_bengali_text t ∧
      (processRecognition s (.success t) (some e)).1.current_english_text =
        joinSp s.current_english_text e ∧
      (processRecognition s (.success t) (some e)).2 =
        [Event.bengaliAppend t,
         Event.bengaliNotify (joinSp s.current_bengali_text t),
         Event.englishAppend e,
         Event.englishNotify (joinSp s.current_english_text e)]) := by
  have htexts := runCycles_texts cs initWorkerState (fun c hc => (h c hc).1)
  refine ⟨?_, ?_, ?_⟩
  · rw [htexts.1]
    exact foldl_joinSp _ (by
      intro x hx
      obtain ⟨c, hc, rfl⟩ := List.mem_map.mp hx
      exact (h c hc).1)
  · rw [htexts.2]
    exact foldl_joinSp _ (by
      intro x hx
      obtain ⟨c, hc, rfl⟩ := List.mem_map.mp hx
      exact (h c hc).2)
  · intro s t e ht hb he
    refine ⟨?_, ?_, ?_⟩
    · rw [processRecognition_success_state s t e ht]
    · rw [processRecognition_success_state s t e ht]
    · rw [processRecognition_success_events s t e ht]
      simp [hb, he]

/-- Witness for C2: the spec scenario — three successful windows recognized
as "one", "two", "three" and translated as "ek", "dui", "tin" yield the
transcripts "one two three" and "ek dui tin". -/
theorem append_invariant_and_scenario_witness :
    (runCycles initWorkerState
      [("one", "ek"), ("two", "dui"), ("three", "tin")]).1.current_bengali_text
        = "one two three" ∧
    (runCycles initWorkerState
      [("one", "ek"), ("two", "dui"), ("three", "tin")]).1.current_english_text
        = "ek dui tin" := by
  have h := append_invariant_and_scenario
    [("one", "ek"), ("two", "dui"), ("three", "tin")] (by decide)
  exact ⟨h.1.trans (by decide), h.2.1.trans (by decide)⟩

/-- Claim C4: in the manual-edit operation with a failing translation call,
the Bengali buffer is set to the given text verbatim, and the returned (and
stored) English text is the given text tokenized on whitespace with each
token that is a key of the fallback dictionary replaced by its mapped value,
unknown tokens unchanged, joined with single spaces; in particular, with the
dictionary mapping "ব্যথা" to "pain", the input "আমার ব্যথা আছে" yields
"আমার pain আছে". -/
theorem manual_edit_fallback (s : PipelineState) (text : String) :
    (update_bengali_text s text none).1.current_bengali_text = text ∧
    (update_bengali_text s text none).2 =
      pyJoinSpace ((pySplit text).map
        (fun w => (lookupTerm s.bengali_medical_terms w).getD w)) ∧
    (update_bengali_text s text none).1.current_english_text =
      (update_bengali_text s text none).2 ∧
    (update_bengali_text
        { initState with bengali_medical_terms := [("ব্যথা", "pain")] }
        "আমার ব্যথা আছে" none).2 = "আমার pain আছে" := by
  refine ⟨rfl, ?_, rfl, by decide⟩
  simp [update_bengali_text, translateWords_map]

/-- Claim C5: in a live cycle where recognition succeeds with text `t`, the
translation call fails, and `t` is not a key of the fallback dictionary, the
Bengali buffer is extended by `t` (space-joined) while the English buffer is
left unchanged, and the cycle's trace contains only Bengali events. -/
theorem translation_failure_asymmetry (s : PipelineState) (t : String)
    (ht : t ≠ "") (hd : lookupTerm s.bengali_medical_terms t = none) :
    (processRecognition s (.success t) none).1.current_bengali_text =
      joinSp s.current_bengali_text t ∧
    (processRecognition s (.success t) none).1.current_english_text =
      s.current_english_text ∧
    ∀ ev ∈ (processRecognition s (.success t) none).2,
      ev = Event.bengaliAppend t ∨
      ev = Event.bengaliNotify (joinSp s.current_bengali_text t) := by
  refine ⟨?_, ?_, ?_⟩
  · simp [processRecognition, ht, hd]
  · simp [processRecognition, ht, hd]
  · intro ev hev
    cases hb : s.on_bengali_update_set <;>
      simp [processRecognition, ht, hd, hb] at hev <;>
      simp [hev]

/-- Witness for C5: a concrete failing-translation cycle for the phrase
"hello", absent from the (empty) fallback dictionary of a fresh pipeline. -/
theorem translation_failure_asymmetry_witness :
    (("hello" : String) ≠ "" ∧
      lookupTerm initState.bengali_medical_terms "hello" = none) ∧
    ((processRecognition initState (.success "hello") none).1.current_bengali_text =
        joinSp initState.current_bengali_text "hello" ∧
     (processRecognition initState (.success "hello") none).1.current_english_text =
        initState.current_english_text ∧
     ∀ ev ∈ (processRecognition initState (.success "hello") none).2,
       ev = Event.bengaliAppend "hello" ∨
       ev = Event.bengaliNotify (joinSp initState.current_bengali_text "hello")) :=
  ⟨⟨by decide, by decide⟩,
   translation_failure_asymmetry initState "hello" (by decide) (by decide)⟩

/-- Claim C6: a cycle whose recognition call raises `UnknownValueError` or
`RequestError` ends with the pipeline state unmutated and an empty event
trace (no notification), while the window is discarded — the buffer is
reset and the timestamp advanced — so the loop simply moves on to the next
window; the window is neither retried nor persisted. -/
theorem recognition_error_no_mutation (ps : PipelineState) (st : AssemblerState)
    (queued : List (AudioData × ℚ)) (currentTime : ℚ) (translation : Option String)
    (h : st.audio_buffer ++ queued.map (fun q => q.1) ≠ [] ∧
         currentTime - st.last_process_time ≥ 3) :
    processingIteration ps st queued currentTime .unknownValueError translation =
      (ps, ⟨[], currentTime⟩, [],
        some (st.audio_buffer ++ queued.map (fun q => q.1))) ∧
    processingIteration ps st queued currentTime .requestError translation =
      (ps, ⟨[], currentTime⟩, [],
        some (st.audio_buffer ++ queued.map (fun q => q.1))) := by
  constructor <;>
    (simp only [processingIteration]; rw [if_pos h]; simp [processRecognition])

/-- Witness for C6: a concrete elapsed window of one frame whose
recognition fails, leaving a fresh pipeline untouched. -/
theorem recognition_error_no_mutation_witness :
    ((⟨[[0]], 0⟩ : AssemblerState).audio_buffer ++
        ([] : List (AudioData × ℚ)).map (fun q => q.1) ≠ [] ∧
      (3 : ℚ) - (⟨[[0]], 0⟩ : AssemblerState).last_process_time ≥ 3) ∧
    (processingIteration initState ⟨[[0]], 0⟩ [] 3 .unknownValueError none =
        (initState, ⟨[], 3⟩, [],
          some ((⟨[[0]], 0⟩ : AssemblerState).audio_buffer ++
            ([] : List (AudioData × ℚ)).map (fun q => q.1))) ∧
     processingIteration initState ⟨[[0]], 0⟩ [] 3 .requestError none =
        (initState, ⟨[], 3⟩, [],
          some ((⟨[[0]], 0⟩ : AssemblerState).audio_buffer ++
            ([] : List (AudioData × ℚ)).map (fun q => q.1)))) :=
  ⟨⟨by simp, by simp⟩,
   recognition_error_no_mutation initState ⟨[[0]], 0⟩ [] 3 none ⟨by simp, by simp⟩⟩

/-- Claim C7: in each `_processing_loop` iteration a recognition cycle is
dispatched if and only if the drained frame buffer is non-empty and at
least 3 seconds have elapsed since `last_process_time`; after a dispatch
the buffer is emptied and the timestamp reset to the iteration time; and
when the sampled `is_running` flag is false, the loop exits at once,
discarding any part-filled buffer without dispatching it. -/
theorem window_dispatch_policy (ps : PipelineState) (st : AssemblerState)
    (queued : List (AudioData × ℚ)) (currentTime : ℚ)
    (recog : RecognitionResult) (translation : Option String) :
    ((processingIteration ps st queued currentTime recog translation).2.2.2.isSome ↔
      (st.audio_buffer ++ queued.map (fun q => q.1) ≠ [] ∧
        currentTime - st.last_process_time ≥ 3)) ∧
    (st.audio_buffer ++ queued.map (fun q => q.1) ≠ [] ∧
        currentTime - st.last_process_time ≥ 3 →
      (processingIteration ps st queued currentTime recog translation).2.1 =
          ⟨[], currentTime⟩ ∧
      (processingIteration ps st queued currentTime recog translation).2.2.2 =
          some (st.audio_buffer ++ queued.map (fun q => q.1))) ∧
    (∀ (i : IterInput) (rest : List IterInput), i.running = false →
      processingLoop ps st (i :: rest) = (ps, st, [])) := by
  refine ⟨?_, ?_, ?_⟩
  · by_cases h : st.audio_buffer ++ queued.map (fun q => q.1) ≠ [] ∧
        currentTime - st.last_process_time ≥ 3
    · simp only [processingIteration]
      rw [if_pos h]
      simpa using h
    · simp only [processingIteration]
      rw [if_neg h]
      simpa using h
  · intro h
    simp only [processingIteration]
    rw [if_pos h]
    exact ⟨rfl, rfl⟩
  · intro i rest hi
    simp [processingLoop, hi]

/-- Witness for C7: an iteration with one queued frame at exactly the
3-second boundary dispatches and resets, and a stop-flagged iteration exits
the loop with the part-filled buffer discarded. -/
theorem window_dispatch_policy_witness :
    ((processingIteration initState ⟨[[0]], 0⟩ [] 3 .unknownValueError none).2.1 =
        ⟨[], 3⟩ ∧
      (processingIteration initState ⟨[[0]], 0⟩ [] 3 .unknownValueError none).2.2.2 =
        some ((⟨[[0]], 0⟩ : AssemblerState).audio_buffer ++
          ([] : List (AudioData × ℚ)).map (fun q => q.1))) ∧
    processingLoop initState ⟨[[0]], 0⟩
      [⟨false, [], 0, .unknownValueError, none⟩] = (initState, ⟨[[0]], 0⟩, []) :=
  ⟨(window_dispatch_policy initState ⟨[[0]], 0⟩ [] 3 .unknownValueError none).2.1
      ⟨by simp, by simp⟩,
   (window_dispatch_policy initState ⟨[[0]], 0⟩ [] 3 .unknownValueError none).2.2
      ⟨false, [], 0, .unknownValueError, none⟩ [] rfl⟩

/-- Claim C8: while paused, one capture-loop iteration performs no stream
read and pushes nothing onto the queue, whereas the window assembler's
drain is independent of the pause flag: whatever is already queued is
appended to its local buffer (when no window is dispatched) or included in
the dispatched window. -/
theorem pause_exclusion (data : AudioData) (ps : PipelineState)
    (st : AssemblerState) (queued : List (AudioData × ℚ)) (currentTime : ℚ)
    (recog : RecognitionResult) (translation : Option String) :
    recordingIteration true data = (none, 0) ∧
    ((processingIteration ps st queued currentTime recog translation).2.2.2 = none →
      (processingIteration ps st queued currentTime recog translation).2.1.audio_buffer =
        st.audio_buffer ++ queued.map (fun q => q.1)) ∧
    (∀ w, (processingIteration ps st queued currentTime recog translation).2.2.2 = some w →
      w = st.audio_buffer ++ queued.map (fun q => q.1)) := by
  refine ⟨by simp [recordingIteration], ?_, ?_⟩ <;>
    by_cases h : st.audio_buffer ++ queued.map (fun q => q.1) ≠ [] ∧
        currentTime - st.last_process_time ≥ 3
  · intro hnone
    simp only [processingIteration] at hnone
    rw [if_pos h] at hnone
    simp at hnone
  · intro _
    simp only [processingIteration]
    rw [if_neg h]
  · intro w hw
    simp only [processingIteration] at hw
    rw [if_pos h] at hw
    simpa using hw.symm
  · intro w hw
    simp only [processingIteration] at hw
    rw [if_neg h] at hw
    simp at hw

/-- Witness for C8: a paused capture iteration pushes nothing, an assembler
iteration with an empty drain keeps an empty buffer, and a queued frame is
included in the window dispatched at the 3-second boundary. -/
theorem pause_exclusion_witness :
    recordingIteration true [5] = (none, 0) ∧
    (processingIteration initState ⟨[], 0⟩ [] 3 .unknownValueError none).2.1.audio_buffer =
      (⟨[], 0⟩ : AssemblerState).audio_buffer ++
        ([] : List (AudioData × ℚ)).map (fun q => q.1) ∧
    ([[7]] : List AudioData) =
      (⟨[], 0⟩ : AssemblerState).audio_buffer ++
        ([([7], 0)] : List (AudioData × ℚ)).map (fun q => q.1) :=
  ⟨(pause_exclusion [5] initState ⟨[], 0⟩ [] 3 .unknownValueError none).1,
   (pause_exclusion [5] initState ⟨[], 0⟩ [] 3 .unknownValueError none).2.1
     (by simp [processingIteration]),
   (pause_exclusion [5] initState ⟨[], 0⟩ [([7], 0)] 3 .unknownValueError none).2.2
     [[7]] (by simp [processingIteration])⟩

/-- Claim C10: the fallback dictionary `bengali_medical_terms` is empty at
construction and is preserved unchanged by every pipeline operation;
consequently a live-path translation failure leaves the English buffer
unchanged (the fallback-append branch is unreachable on any state with an
empty dictionary), and a manual edit under a translation failure returns
the input split on whitespace and rejoined with single spaces, with no token
translated. -/
theorem empty_fallback_dictionary (s : PipelineState) (t text : String)
    (hs : s.bengali_medical_terms = []) (ht : t ≠ "") :
    initState.bengali_medical_terms = [] ∧
    (∀ u : PipelineState, (start u).bengali_medical_terms = u.bengali_medical_terms) ∧
    (∀ u : PipelineState, (stop u).1.bengali_medical_terms = u.bengali_medical_terms) ∧
    (∀ u : PipelineState, (pause u).bengali_medical_terms = u.bengali_medical_terms) ∧
    (∀ u : PipelineState, (resume u).bengali_medical_terms = u.bengali_medical_terms) ∧
    (∀ (u : PipelineState) (x : String) (tr : Option String),
      (update_bengali_text u x tr).1.bengali_medical_terms = u.bengali_medical_terms) ∧
    (∀ (u : PipelineState) (r : RecognitionResult) (tr : Option String),
      (processRecognition u r tr).1.bengali_medical_terms = u.bengali_medical_terms) ∧
    (processRecognition s (.success t) none).1.current_english_text =
      s.current_english_text ∧
    (update_bengali_text s text none).2 = pyJoinSpace (pySplit text) := by
  refine ⟨rfl, fun u => rfl, fun u => rfl, fun u => rfl, fun u => rfl,
    ?_, ?_, ?_, ?_⟩
  · intro u x tr
    cases tr <;> rfl
  · intro u r tr
    cases r with
    | unknownValueError => rfl
    | requestError => rfl
    | success t2 =>
        by_cases h2 : t2 = ""
        · simp [processRecognition, h2]
        · cases tr with
          | some e => simp [processRecognition, h2]
          | none =>
              cases hl : lookupTerm u.bengali_medical_terms t2 <;>
                simp [processRecognition, h2, hl]
  · have hl : lookupTerm s.bengali_medical_terms t = none := by
      rw [hs]; rfl
    simp [processRecognition, ht, hl]
  · simp [update_bengali_text, hs, translateWords_nil_terms]

/-- Witness for C10: a fresh pipeline's dictionary is empty, a failing
translation after recognizing "x" leaves the English buffer untouched, and
a failing manual edit of " a  b " returns the whitespace-normalized "a b". -/
theorem empty_fallback_dictionary_witness :
    (initState.bengali_medical_terms = [] ∧ ("x" : String) ≠ "") ∧
    ((processRecognition initState (.success "x") none).1.current_english_text =
        initState.current_english_text ∧
      (update_bengali_text initState " a  b " none).2 =
        pyJoinSpace (pySplit " a  b ")) :=
  ⟨⟨rfl, by decide⟩,
   (empty_fallback_dictionary initState "x" " a  b " rfl
      (by decide)).2.2.2.2.2.2.2.1,
   (empty_fallback_dictionary initState "x" " a  b " rfl
      (by decide)).2.2.2.2.2.2.2.2⟩

end BanglaMed
